import Mathlib

/-!
Verification of the Mechapres dashboard decision/calculation engine.

The definitions below are a shallow embedding of the core logic of
`src/app.py`: the feasibility decision tree (`evaluate_decision_tree`),
the heat-pump performance model (`excel_performance_logic`) and the
economics computation of the "Investment & Returns" page (costs, CO₂,
capex, payback, IRR via bisection, cash-flow series with break-even).
Machine floats are modelled as rationals; Python `None` as `Option`;
a raised exception as an `Option.none` result.  Note strings are kept,
with numeric interpolation of values into the message text elided
(no claim depends on the interpolated digits).
-/

namespace Mechapres

/-! ### Decision-tree thresholds (DT_THRESHOLDS, app.py lines 674-682) -/

def process_temp_min : ℚ := 80
def process_temp_max : ℚ := 200
def steam_pressure_max : ℚ := 10
def hp_target_max : ℚ := 180
def hot_air_ok_max : ℚ := 110
def hot_air_caution_max : ℚ := 150

/-- Value stored in the gate `assumptions` dict: a Python float or string. -/
inductive AVal where
  | num (q : ℚ)
  | str (s : String)
deriving DecidableEq, Repr

/-- Status strings returned by `evaluate_decision_tree`. -/
inductive GateStatus where
  | not_viable
  | caution
  | suggest_hx
  | proceed
deriving DecidableEq, Repr

/-- Result dict of `evaluate_decision_tree`: status, ordered notes, and the
assumptions dict modelled as an insertion-ordered association list. -/
structure GateResult where
  status : GateStatus
  notes : List String
  assumptions : List (String × AVal)
deriving DecidableEq, Repr

/-- Arguments of `evaluate_decision_tree` (app.py lines 684-689); Python
`None` is `Option.none`, the energy vector is an arbitrary string. -/
structure GateInputs where
  process_temp_c : Option ℚ
  energy_vector : String
  target_supply_temp_c : Option ℚ
  steam_pressure_barA : Option ℚ
  has_waste_heat : Bool
  waste_temp_known : Bool
  waste_temp_c : Option ℚ
  waste_amount_known : Bool
  waste_amount_pct_band : Option String
  waste_heat_captured : Option String
  has_waste_heat_processor : Option String
  how_released : Option String
  waste_form : Option String
  humidity_ratio_known : Option String
  q_waste_kw : Option ℚ
deriving DecidableEq, Repr

/-- Test whether the character list `l` starts with the pattern `pat`. -/
def charsStartWith (pat : List Char) : List Char → Bool
  | l =>
    match pat, l with
    | [], _ => true
    | _ :: _, [] => false
    | p :: ps, c :: cs => p = c && charsStartWith ps cs

/-- Characters of `l` before the first occurrence of the substring `pat`
(all of `l` when `pat` does not occur): models Python `s.split(pat)[0]`. -/
def takeUntilSub (pat : List Char) : List Char → List Char
  | [] => []
  | c :: cs => if charsStartWith pat (c :: cs) then [] else c :: takeUntilSub pat cs

/-- Substring containment test: models Python `pat in s`. -/
def containsSub (pat : List Char) : List Char → Bool
  | [] => charsStartWith pat []
  | c :: cs => charsStartWith pat (c :: cs) || containsSub pat cs

/-- Characters of `l` after the first occurrence of the substring `pat`
(empty when `pat` does not occur). -/
def afterFirstSub (pat : List Char) : List Char → List Char
  | [] => []
  | c :: cs =>
    if charsStartWith pat (c :: cs) then (c :: cs).drop pat.length
    else afterFirstSub pat cs

/-- Whitespace stripping at both ends: models Python `s.strip()`. -/
def py_strip (l : List Char) : List Char :=
  (((l.dropWhile Char.isWhitespace).reverse).dropWhile Char.isWhitespace).reverse

/-- Decimal number denoted by a list of digit characters. -/
def digitsToNat (l : List Char) : ℕ :=
  l.foldl (fun n c => n * 10 + (c.toNat - ('0').toNat)) 0

/-- Lower-casing of a string: models Python `str.lower()` (ASCII range,
which covers every energy-vector value the form can supply). -/
def py_lower (s : String) : String := String.mk (s.data.map Char.toLower)

/-- Band upper-bound percentage extraction (app.py lines 752-760):
`band.split("of")[0].strip()`, then if an en-dash is present take the
text between the first and second en-dash (`split("–")[1]`), keep its
digits and read them as an integer (50 when no digit remains); if no
en-dash is present the string "50" is used; any failure yields 50.  The
Python `try` can only reach the `except` arm through the absence of the
en-dash, which the `else` branch models. -/
def band_upper_estimate (band : String) : ℕ :=
  let band_clean := py_strip (takeUntilSub ['o', 'f'] band.data)
  if containsSub ['–'] band_clean then
    let hi_str := takeUntilSub ['–'] (afterFirstSub ['–'] band_clean)
    let digits := hi_str.filter Char.isDigit
    if digits = [] then 50 else digitsToNat digits
  else 50

def general_vent_str : String := "General ventilation in the production area"
def dedicated_str : String := "Dedicated cooling system or exhaust pipe"
def default_band_str : String := "31–50% of energy input"

/-- Medium-specific guidance notes (app.py lines 767-772). -/
def form_notes : List (String × String) :=
  [("Humid air", "Waste heat available as humid air — heat pump integration possible, with final sizing refined at design stage."),
   ("Dry hot air", "Waste heat available as dry hot air — suitable for heat pump via an air-to-refrigerant heat exchanger."),
   ("Hot water", "Waste heat available as hot water — highly suitable for heat-pump integration."),
   ("Pure steam", "Waste heat available as pure steam — heat pump integration possible with suitable condenser design.")]

/-- Final stage of the decision tree (app.py lines 764-788): waste-form
note and assumption, capture and existing-processor notes, and the final
status (`proceed` when no notes were accumulated, else `caution`). -/
def gate_finalize (i : GateInputs) (notes : List String)
    (assumps : List (String × AVal)) : GateResult :=
  let formStep : List (String × AVal) × List String :=
    match i.waste_form with
    | some wf =>
      if wf = "" then ([], notes)
      else
        let a := [("waste_form", AVal.str wf)]
        match (form_notes.lookup wf) with
        | some n => (a, notes ++ [n])
        | none => (a, notes)
    | none => ([], notes)
  let notes1 := formStep.2
  let notes2 :=
    if i.waste_heat_captured = some "Yes" then
      notes1 ++ ["Waste heat is already captured — integration may be simpler and cheaper."]
    else if i.waste_heat_captured = some "No" then
      notes1 ++ ["Waste heat not yet captured — additional pipework/ducting or a heat exchanger may be needed."]
    else notes1
  let notes3 :=
    if i.has_waste_heat_processor = some "Yes" then
      notes2 ++ ["There is already a waste-heat processing system on site (e.g. ORC or heat-recovery unit)."]
    else if i.has_waste_heat_processor = some "No" then
      notes2 ++ ["No existing waste-heat processor — Mechapres could be the main technology to use that heat."]
    else notes2
  { status := if notes3 = [] then GateStatus.proceed else GateStatus.caution,
    notes := notes3,
    assumptions := assumps ++ formStep.1 }

/-- Steps 3-9 of the decision tree (app.py lines 729-788), reached after
the temperature-window and energy-vector checks with the notes
accumulated so far. -/
def gate_after_vector (i : GateInputs) (pt : ℚ) (notes : List String) : GateResult :=
  if ¬ i.has_waste_heat then
    { status := GateStatus.suggest_hx,
      notes := ["No waste heat identified — this may be better suited to direct heat recovery via heat exchangers."],
      assumptions := [] }
  else if i.how_released = some general_vent_str then
    { status := GateStatus.not_viable,
      notes := ["Waste heat only available via general room ventilation — better suited to heat recovery through heat exchangers than a heat pump."],
      assumptions := [] }
  else
    let notes0 :=
      if i.how_released = some dedicated_str then
        notes ++ ["Waste heat from a dedicated cooling system or exhaust — suitable for heat-pump integration."]
      else notes
    let tempStep : List (String × AVal) × List String :=
      match i.waste_temp_c with
      | some wt =>
        if i.waste_temp_known then ([("T_in1", AVal.num wt)], notes0)
        else ([("T_in1", AVal.num pt)],
          notes0 ++ ["Waste-heat temperature unknown — assuming equal to process temperature."])
      | none =>
        ([("T_in1", AVal.num pt)],
          notes0 ++ ["Waste-heat temperature unknown — assuming equal to process temperature."])
    let bandStep : List (String × AVal) × List String :=
      let band :=
        match i.waste_amount_pct_band with
        | some b => if b = "" then default_band_str else b
        | none => default_band_str
      ([("waste_pct", AVal.num (band_upper_estimate band))],
        tempStep.2 ++ ["Waste-heat amount unknown — using upper estimate of energy input."])
    let amountStep : List (String × AVal) × List String :=
      match i.waste_amount_known, i.q_waste_kw with
      | true, some q =>
        if q > 0 then
          ([("Q_waste_kW", AVal.num q)],
            tempStep.2 ++ ["Using user-provided waste heat level Q_waste in kW."])
        else bandStep
      | _, _ => bandStep
    gate_finalize i amountStep.2 (tempStep.1 ++ amountStep.1)

/-- Temperature-window and energy-vector checks of the decision tree
(app.py lines 703-727), entered once both temperatures are present; the
remaining steps are `gate_after_vector`. -/
def gate_vector_stage (i : GateInputs) (pt tt : ℚ) : GateResult :=
    if pt < process_temp_min ∨ pt > process_temp_max then
      { status := GateStatus.not_viable,
        notes := ["Process temperature is outside the 80–200 °C window — heat pump not viable."],
        assumptions := [] }
    else
      let e := py_lower i.energy_vector
      if e = "steam" then
        match i.steam_pressure_barA with
        | none =>
          { status := GateStatus.caution,
            notes := ["Provide steam pressure (barA) to check heat-pump feasibility."],
            assumptions := [] }
        | some p =>
          if p > steam_pressure_max then
            { status := GateStatus.not_viable,
              notes := ["Steam pressure above 10 barA — heat pump not possible."],
              assumptions := [] }
          else gate_after_vector i pt []
      else if e = "hot air" then
        if tt > hp_target_max then
          { status := GateStatus.not_viable,
            notes := ["Required hot-air temperature above 180°C — heat pump not possible."],
            assumptions := [] }
        else if tt > hot_air_caution_max then
          { status := GateStatus.not_viable,
            notes := ["Hot air >150 °C — heat pump not recommended (consider heat exchangers)."],
            assumptions := [] }
        else if hot_air_ok_max < tt ∧ tt ≤ hot_air_caution_max then
          gate_after_vector i pt ["Hot air 110–150 °C — feasible but COP may be modest (high lift)."]
        else gate_after_vector i pt []
      else if e = "hot water" then
        if tt > hp_target_max then
          { status := GateStatus.not_viable,
            notes := ["Required hot-water temperature above 180°C — heat pump not possible."],
            assumptions := [] }
        else gate_after_vector i pt []
      else gate_after_vector i pt []

/-- Feasibility decision tree `evaluate_decision_tree` (app.py lines
684-788).  Missing temperatures return a caution; the temperature-window
and energy-vector checks and the subsequent waste-heat steps are
`gate_vector_stage`. -/
def evaluate_decision_tree (i : GateInputs) : GateResult :=
  match i.process_temp_c, i.target_supply_temp_c with
  | none, _ =>
    { status := GateStatus.caution,
      notes := ["Please provide all required temperature values."], assumptions := [] }
  | some _, none =>
    { status := GateStatus.caution,
      notes := ["Please provide all required temperature values."], assumptions := [] }
  | some pt, some tt => gate_vector_stage i pt tt

/-! ### Performance model (app.py lines 790-840) -/

/-- Result dict of `excel_performance_logic`; the electrical-draw fields
may be `float("inf")`, modelled as `Option.none`. -/
structure PerfResult where
  T_cond_steam : ℚ
  T_evap : ℚ
  COP_carnot : ℚ
  COP_real : ℚ
  waste_heat_min_kW : ℚ
  waste_heat_max_kW : ℚ
  E_min_kW : Option ℚ
  E_max_kW : Option ℚ
  Q2_min_kW : ℚ
  Q2_max_kW : ℚ
  capacity_MWth : ℚ
deriving DecidableEq, Repr

/-- Heat-pump performance model `excel_performance_logic` (app.py lines
790-840).  A raised `ValueError` (non-positive heat demand, or a missing
temperature) is modelled as `none`; the source defaults
`T_app_condenser=8`, `T_app_evaporator=8`, `T_ev_minimum=70`,
`lorentz_eff=0.60`, `waste_heat_min_pct=30`, `waste_heat_max_pct=60` are
passed explicitly by the theorems.  `P_out2` is accepted and unused,
as in the source. -/
def excel_performance_logic (T_in1 T_out2 : Option ℚ) (P_out2 Q_process : ℚ)
    (T_app_condenser T_app_evaporator T_ev_minimum lorentz_eff : ℚ)
    (waste_heat_min_pct waste_heat_max_pct : ℚ) : Option PerfResult :=
  if Q_process ≤ 0 then none
  else
    match T_in1, T_out2 with
    | some t1, some t2 =>
      let T_cond_steam := t2 + T_app_condenser - 2
      let T_evap_raw := t1 - T_app_evaporator
      let T_evap := max T_evap_raw T_ev_minimum
      let COP_carnot :=
        if T_cond_steam ≤ T_evap then 0
        else
          let TcK := T_cond_steam + 27315/100
          let TeK := T_evap + 27315/100
          TcK / (TcK - TeK)
      let COP_real := max 0 (lorentz_eff * COP_carnot)
      let wh_min := Q_process * (waste_heat_min_pct / 100)
      let wh_max := Q_process * (waste_heat_max_pct / 100)
      let E_full : Option ℚ := if COP_real > 0 then some (Q_process / COP_real) else none
      let E_min : Option ℚ := E_full.map (fun x => x / 2)
      some
        { T_cond_steam := T_cond_steam, T_evap := T_evap,
          COP_carnot := COP_carnot, COP_real := COP_real,
          waste_heat_min_kW := wh_min, waste_heat_max_kW := wh_max,
          E_min_kW := E_min, E_max_kW := E_full,
          Q2_min_kW := wh_min, Q2_max_kW := wh_max,
          capacity_MWth := Q_process / 1000 }
    | _, _ => none

/-- The `COP_real` field of the performance model at the source defaults
(`P_out2=5` and unit heat demand; `COP_real` does not depend on either),
as a plain function of the waste-heat inlet and required outlet
temperatures. -/
def cop_real_default (t1 t2 : ℚ) : ℚ :=
  (((excel_performance_logic (some t1) (some t2) 5 1 8 8 70 (3/5) 30 60).map
      PerfResult.COP_real).getD 0)

/-! ### Economics engine (app.py lines 1786-1962) -/

/-- Helper `system_uses_fuel` (app.py lines 145-148). -/
def system_uses_fuel (heat_supply_tech : String) : Bool :=
  ¬ (heat_supply_tech ∈ ["Electric boiler", "Industrial heat pump"])

/-- Capex helper `total_investment` (app.py lines 1870-1872), taking the
five cost-rate assumptions explicitly. -/
def total_investment (design_pm fixed_install hp_cost_per_kw hr_cost_per_kw
    var_install_per_kw hp_kw hr_kw : ℚ) : ℚ :=
  design_pm + fixed_install +
    (hp_kw * hp_cost_per_kw + hr_kw * hr_cost_per_kw + (hp_kw + hr_kw) * var_install_per_kw)

/-- Payback helper `simple_payback` (app.py lines 1880-1881); the
`float("inf")` outcome for non-positive savings is `none`. -/
def simple_payback (capex savings : ℚ) : Option ℚ :=
  if savings > 0 then some (capex / savings) else none

/-- Accumulation loop `for t in range(1, years+1): npv += savings/((1+r)**t)`
of the IRR bisection (app.py lines 1890-1891). -/
def npv_sum (savings r : ℚ) : ℕ → ℚ
  | 0 => 0
  | t + 1 => npv_sum savings r t + savings / (1 + r) ^ (t + 1)

/-- Net present value evaluated inside the IRR bisection (app.py lines
1889-1891): `-capex` plus the discounted constant savings of years
`1..years`. -/
def npv_at (capex savings r : ℚ) (years : ℕ) : ℚ :=
  -capex + npv_sum savings r years

/-- The 60-iteration bisection loop of `irr_from_savings` (app.py lines
1886-1895), acting on the pair (low_r, high_r). -/
def irr_bisect (capex savings : ℚ) (years : ℕ) : ℕ → ℚ × ℚ → ℚ × ℚ
  | 0, lh => lh
  | n + 1, (lo, hi) =>
    let r := (lo + hi) / 2
    if npv_at capex savings r years > 0 then irr_bisect capex savings years n (r, hi)
    else irr_bisect capex savings years n (lo, r)

/-- IRR helper `irr_from_savings` (app.py lines 1883-1896): 0 for
non-positive savings, else the midpoint of the interval left by 60
bisection steps on [0, 1], as a percentage. -/
def irr_from_savings (capex savings : ℚ) (years : ℕ) : ℚ :=
  if savings ≤ 0 then 0
  else
    let lh := irr_bisect capex savings years 60 (0, 1)
    (lh.1 + lh.2) / 2 * 100

/-- Running-sum tail of the cumulative series built by
`calculate_cash_flow`: each entry is the previous total plus the
constant savings (`cumulative.append(cumulative[-1] + annual_savings)`). -/
def cumulative_from (savings last : ℚ) : ℕ → List ℚ
  | 0 => []
  | n + 1 => (last + savings) :: cumulative_from savings (last + savings) n

/-- Cash-flow helper `calculate_cash_flow` (app.py lines 1943-1949):
year 0 is `-capex`, years `1..years` each add the constant savings, and
the cumulative list is the running sum. -/
def calculate_cash_flow (capex annual_savings : ℚ) (years : ℕ) : List ℚ × List ℚ :=
  (-capex :: List.replicate years annual_savings,
   -capex :: cumulative_from annual_savings (-capex) years)

/-- Index scan of `find_breakeven` (app.py lines 1955-1959). -/
def find_breakeven_from (idx : ℕ) : List ℚ → Option ℕ
  | [] => none
  | v :: rest => if v ≥ 0 then some idx else find_breakeven_from (idx + 1) rest

/-- Break-even helper `find_breakeven` (app.py lines 1955-1959): the
index of the first cumulative value that is ≥ 0, if any. -/
def find_breakeven (cumulative : List ℚ) : Option ℕ :=
  find_breakeven_from 0 cumulative

/-- Inputs of the Investment & Returns computation (app.py lines
1786-1962) other than the performance result. -/
structure EconInputs where
  Q_process : ℚ
  operating_hours : ℚ
  electricity_price : ℚ
  fuel_price : ℚ
  boiler_eff : ℚ
  heat_supply_tech : String
  emission_factor_elec : ℚ
  emission_factor_fuel_kWh : ℚ
  design_pm : ℚ
  fixed_install : ℚ
  hp_cost_per_kw : ℚ
  hr_cost_per_kw : ℚ
  var_install_per_kw : ℚ
deriving DecidableEq, Repr

/-- Outputs of the Investment & Returns computation. -/
structure EconOutputs where
  Q_steam_MWh : ℚ
  E_hp_electric_MWh : ℚ
  E_current_MWh : ℚ
  cost_current : ℚ
  cost_mechapres : ℚ
  co2_current : ℚ
  co2_mechapres : ℚ
  co2_savings : ℚ
  hp_size_high_kw : ℚ
  hp_size_low_kw : ℚ
  hr_size_high_kw : ℚ
  hr_size_low_kw : ℚ
  capex_low : ℚ
  capex_high : ℚ
  savings_high : ℚ
  savings_low : ℚ
  payback_low : Option ℚ
  payback_high : Option ℚ
  irr_low : ℚ
  irr_high : ℚ
  cf_low : List ℚ
  cum_low : List ℚ
  cf_high : List ℚ
  cum_high : List ℚ
  breakeven_low : Option ℕ
  breakeven_high : Option ℕ
deriving DecidableEq, Repr

/-- The Investment & Returns page computation (app.py lines 1826-1962):
energy balances, costs, CO₂ emissions and savings, sizing, capex for the
low and high cases, paybacks, IRRs, cash-flow series and break-even
detection, from a performance result and the economic inputs. -/
def compute_investment_returns (perf : PerfResult) (i : EconInputs) : EconOutputs :=
  let uses_fuel := system_uses_fuel i.heat_supply_tech
  let current_energy_price := if uses_fuel then i.fuel_price else i.electricity_price
  let Q_steam_MWh := i.Q_process * i.operating_hours / 1000
  let E_hp_electric_MWh := Q_steam_MWh / perf.COP_real
  let E_current_MWh := Q_steam_MWh / i.boiler_eff
  let cost_current := E_current_MWh * current_energy_price
  let cost_mechapres := E_hp_electric_MWh * i.electricity_price
  let annual_savings_high := cost_current - cost_mechapres
  let co2_current :=
    if uses_fuel then E_current_MWh * i.emission_factor_fuel_kWh
    else E_current_MWh * i.emission_factor_elec / 1000
  let co2_mechapres := E_hp_electric_MWh * i.emission_factor_elec / 1000
  let co2_savings := max 0 (co2_current - co2_mechapres)
  let hp_size_high_kw := max 250 (perf.capacity_MWth * 1000)
  let hp_size_low_kw := max 250 (hp_size_high_kw / 2)
  let hr_size_high_kw := 66/100 * hp_size_high_kw
  let hr_size_low_kw := 66/100 * hp_size_low_kw
  let capex_low := total_investment i.design_pm i.fixed_install i.hp_cost_per_kw
    i.hr_cost_per_kw i.var_install_per_kw hp_size_low_kw hr_size_low_kw
  let capex_high := total_investment i.design_pm i.fixed_install i.hp_cost_per_kw
    i.hr_cost_per_kw i.var_install_per_kw hp_size_high_kw hr_size_high_kw
  let savings_high := max annual_savings_high 0
  let savings_low := max (15/100 * savings_high) 0
  let cfl := calculate_cash_flow capex_low savings_low 10
  let cfh := calculate_cash_flow capex_high savings_high 10
  { Q_steam_MWh := Q_steam_MWh,
    E_hp_electric_MWh := E_hp_electric_MWh,
    E_current_MWh := E_current_MWh,
    cost_current := cost_current,
    cost_mechapres := cost_mechapres,
    co2_current := co2_current,
    co2_mechapres := co2_mechapres,
    co2_savings := co2_savings,
    hp_size_high_kw := hp_size_high_kw,
    hp_size_low_kw := hp_size_low_kw,
    hr_size_high_kw := hr_size_high_kw,
    hr_size_low_kw := hr_size_low_kw,
    capex_low := capex_low,
    capex_high := capex_high,
    savings_high := savings_high,
    savings_low := savings_low,
    payback_low := simple_payback capex_low savings_low,
    payback_high := simple_payback capex_high savings_high,
    irr_low := irr_from_savings capex_low savings_low 10,
    irr_high := irr_from_savings capex_high savings_high 10,
    cf_low := cfl.1, cum_low := cfl.2,
    cf_high := cfh.1, cum_high := cfh.2,
    breakeven_low := find_breakeven cfl.2,
    breakeven_high := find_breakeven cfh.2 }

/-- Discounted-savings accumulation of `npv_sum` over the reals. -/
noncomputable def npv_sumR (savings r : ℝ) : ℕ → ℝ
  | 0 => 0
  | t + 1 => npv_sumR savings r t + savings / (1 + r) ^ (t + 1)

/-- Net present value over the reals, the idealisation that the
bisection of `irr_from_savings` approximates. -/
noncomputable def npvR (capex savings : ℝ) (r : ℝ) (years : ℕ) : ℝ :=
  -capex + npv_sumR savings r years

/-! ### Concrete inputs used by the witnesses and counterexamples -/

/-- Gate input of concrete scenario 1 of the specification: 150 °C steam
process at 5 barA, 150 °C target, waste heat from a dedicated exhaust at
a known 100 °C and a known 1000 kW, hot-water medium, not yet captured,
no existing recovery equipment. -/
def gi_scenario1 : GateInputs :=
  { process_temp_c := some 150, energy_vector := "Steam",
    target_supply_temp_c := some 150, steam_pressure_barA := some 5,
    has_waste_heat := true, waste_temp_known := true, waste_temp_c := some 100,
    waste_amount_known := true,
    waste_amount_pct_band := some "31-50% (average for modern processes)",
    waste_heat_captured := some "No", has_waste_heat_processor := some "No",
    how_released := some dedicated_str, waste_form := some "Hot water",
    humidity_ratio_known := some "No", q_waste_kw := some 1000 }

/-- Scenario-1 input with the waste-heat amount not known, so that the
band-parsing branch is taken with the given band label. -/
def gi_with_band (band : String) : GateInputs :=
  { gi_scenario1 with
    waste_amount_known := false
    waste_amount_pct_band := some band }

/-- Scenario-1 input with the process temperature moved above the window. -/
def gi_window_c6 : GateInputs := { gi_scenario1 with process_temp_c := some 250 }

/-- A performance result with COP_real ≈ 4.02 and 1 MWth capacity, as
produced by the performance model for scenario 5. -/
def perf_sample : PerfResult :=
  { T_cond_steam := 156, T_evap := 92, COP_carnot := 8583/1280,
    COP_real := 25749/6400, waste_heat_min_kW := 300, waste_heat_max_kW := 600,
    E_min_kW := some (some_E/2), E_max_kW := some some_E,
    Q2_min_kW := 300, Q2_max_kW := 600, capacity_MWth := 1 }
where some_E : ℚ := 1000 / (25749/6400)

/-- Economic inputs with a fuel-based existing system (natural-gas factor
0.2027 kg/kWh), matching the form defaults. -/
def econ_fuel : EconInputs :=
  { Q_process := 1000, operating_hours := 1000, electricity_price := 90,
    fuel_price := 30, boiler_eff := 4/5, heat_supply_tech := "Fossil fuel boiler",
    emission_factor_elec := 50, emission_factor_fuel_kWh := 2027/10000,
    design_pm := 50000, fixed_install := 50000, hp_cost_per_kw := 250,
    hr_cost_per_kw := 50, var_install_per_kw := 10 }

/-- The same economic inputs with an already-electric existing system. -/
def econ_elec : EconInputs := { econ_fuel with heat_supply_tech := "Electric boiler" }

end Mechapres

namespace Mechapres

/-! ### Field-evaluation lemmas for the economics computation -/

theorem econ_E_current (perf : PerfResult) (i : EconInputs) :
    (compute_investment_returns perf i).E_current_MWh =
      i.Q_process * i.operating_hours / 1000 / i.boiler_eff := rfl

theorem econ_E_hp (perf : PerfResult) (i : EconInputs) :
    (compute_investment_returns perf i).E_hp_electric_MWh =
      i.Q_process * i.operating_hours / 1000 / perf.COP_real := rfl

theorem econ_co2_current (perf : PerfResult) (i : EconInputs) :
    (compute_investment_returns perf i).co2_current =
      (if system_uses_fuel i.heat_supply_tech then
          i.Q_process * i.operating_hours / 1000 / i.boiler_eff * i.emission_factor_fuel_kWh
        else
          i.Q_process * i.operating_hours / 1000 / i.boiler_eff * i.emission_factor_elec / 1000) := rfl

theorem econ_co2_mechapres (perf : PerfResult) (i : EconInputs) :
    (compute_investment_returns perf i).co2_mechapres =
      i.Q_process * i.operating_hours / 1000 / perf.COP_real * i.emission_factor_elec / 1000 := rfl

theorem econ_co2_savings (perf : PerfResult) (i : EconInputs) :
    (compute_investment_returns perf i).co2_savings =
      max 0 ((compute_investment_returns perf i).co2_current -
        (compute_investment_returns perf i).co2_mechapres) := rfl

/-! ### Claim theorems -/

/-- C6: whenever both temperatures are present and the process
temperature is outside the 80–200 °C window, the decision tree returns
`not_viable`, whatever the other fields hold. -/
theorem temp_window_not_viable (i : GateInputs) (pt tt : ℚ)
    (hp : i.process_temp_c = some pt) (ht : i.target_supply_temp_c = some tt)
    (h : pt < 80 ∨ pt > 200) :
    (evaluate_decision_tree i).status = GateStatus.not_viable := by
  unfold evaluate_decision_tree
  rw [hp, ht]
  have h2 : pt < process_temp_min ∨ pt > process_temp_max := by
    simpa [process_temp_min, process_temp_max] using h
  simp [gate_vector_stage, h2]

/-- C6 witness: the window check fires at a concrete 250 °C input. -/
theorem temp_window_not_viable_witness :
    gi_window_c6.process_temp_c = some 250 ∧
    gi_window_c6.target_supply_temp_c = some 150 ∧
    ((250:ℚ) < 80 ∨ (250:ℚ) > 200) ∧
    (evaluate_decision_tree gi_window_c6).status = GateStatus.not_viable :=
  ⟨rfl, rfl, by norm_num,
    temp_window_not_viable gi_window_c6 250 150 rfl rfl (by norm_num)⟩

/-- C7 counterexample: on the scenario-1 input the returned assumptions
mapping also contains the key `waste_form` (value "Hot water"), so it is
not equal to the two-entry mapping `{T_in1: 100.0, Q_waste_kW: 1000.0}`
stated by the claim. -/
theorem scenario1_assumptions_counterexample :
    (evaluate_decision_tree gi_scenario1).assumptions.lookup "waste_form" =
      some (AVal.str "Hot water") ∧
    (evaluate_decision_tree gi_scenario1).assumptions ≠
      [("T_in1", AVal.num 100), ("Q_waste_kW", AVal.num 1000)] := by
  constructor
  · decide
  · decide

/-- C7 amended: on the scenario-1 input the decision tree returns status
`caution` with a non-empty notes list, and its assumptions mapping is
`{T_in1: 100.0, Q_waste_kW: 1000.0, waste_form: "Hot water"}`. -/
theorem scenario1_gate_result :
    (evaluate_decision_tree gi_scenario1).status = GateStatus.caution ∧
    (evaluate_decision_tree gi_scenario1).notes ≠ [] ∧
    (evaluate_decision_tree gi_scenario1).assumptions =
      [("T_in1", AVal.num 100), ("Q_waste_kW", AVal.num 1000),
       ("waste_form", AVal.str "Hot water")] := by
  refine ⟨?_, ?_, ?_⟩ <;> decide

/-- C8: for the scenario-5 temperatures (100 °C in, 150 °C out) at the
source defaults and any positive heat demand, the performance model
returns T_cond_steam = 156, T_evap = 92, COP_carnot = 429.15/64 =
8583/1280 ≈ 6.705 and COP_real = 0.60 × COP_carnot = 25749/6400 ≈ 4.02. -/
theorem perf_scenario5 (P Q : ℚ) (hQ : 0 < Q) :
    ∃ r : PerfResult,
      excel_performance_logic (some 100) (some 150) P Q 8 8 70 (3/5) 30 60 = some r ∧
      r.T_cond_steam = 156 ∧ r.T_evap = 92 ∧
      r.COP_carnot = 8583/1280 ∧ r.COP_real = 25749/6400 := by
  unfold excel_performance_logic
  rw [if_neg (not_le.mpr hQ)]
  refine ⟨_, rfl, ?_, ?_, ?_, ?_⟩ <;> norm_num

/-- C8 witness: scenario 5 at a concrete 1000 kW heat demand. -/
theorem perf_scenario5_witness :
    (0:ℚ) < 1000 ∧
    ∃ r : PerfResult,
      excel_performance_logic (some 100) (some 150) 5 1000 8 8 70 (3/5) 30 60 = some r ∧
      r.T_cond_steam = 156 ∧ r.T_evap = 92 ∧
      r.COP_carnot = 8583/1280 ∧ r.COP_real = 25749/6400 :=
  ⟨by norm_num, perf_scenario5 5 1000 (by norm_num)⟩

theorem cumulative_from_length (s : ℚ) :
    ∀ (n : ℕ) (last : ℚ), (cumulative_from s last n).length = n := by
  intro n
  induction n with
  | zero => intro last; simp [cumulative_from]
  | succ m ih => intro last; simp [cumulative_from, ih]

theorem cumulative_from_getD (s : ℚ) :
    ∀ (n k : ℕ) (last : ℚ), k < n →
      (cumulative_from s last n).getD k 0 = last + (k + 1) * s := by
  intro n
  induction n with
  | zero => intro k last hk; exact absurd hk (Nat.not_lt_zero k)
  | succ m ih =>
    intro k last hk
    cases k with
    | zero => simp [cumulative_from]
    | succ j =>
      simp only [cumulative_from, List.getD_cons_succ]
      rw [ih j (last + s) (by omega)]
      push_cast
      ring

theorem find_breakeven_from_some :
    ∀ (l : List ℚ) (i k : ℕ), find_breakeven_from i l = some k →
      ∃ j, j < l.length ∧ k = i + j ∧ 0 ≤ l.getD j 0 ∧
        ∀ m, m < j → l.getD m 0 < 0 := by
  intro l
  induction l with
  | nil => intro i k h; simp [find_breakeven_from] at h
  | cons v rest ih =>
    intro i k h
    rw [find_breakeven_from] at h
    by_cases hv : v ≥ 0
    · rw [if_pos hv] at h
      obtain rfl := Option.some.inj h
      exact ⟨0, by simp, by omega, by simpa using hv,
        fun m hm => absurd hm (Nat.not_lt_zero m)⟩
    · rw [if_neg hv] at h
      obtain ⟨j, hj, hk, hge, hlt⟩ := ih (i + 1) k h
      refine ⟨j + 1, by simpa using hj, by omega, by simpa using hge, ?_⟩
      intro m hm
      cases m with
      | zero => simpa using lt_of_not_ge hv
      | succ m2 => simpa using hlt m2 (by omega)

theorem find_breakeven_from_none :
    ∀ (l : List ℚ) (i : ℕ), find_breakeven_from i l = none →
      ∀ j, j < l.length → l.getD j 0 < 0 := by
  intro l
  induction l with
  | nil => intro i _ j hj; simp at hj
  | cons v rest ih =>
    intro i h j hj
    rw [find_breakeven_from] at h
    by_cases hv : v ≥ 0
    · rw [if_pos hv] at h; exact absurd h (by simp)
    · rw [if_neg hv] at h
      cases j with
      | zero => simpa using lt_of_not_ge hv
      | succ j2 => simpa using ih (i + 1) h j2 (by simpa using hj)

/-- C5: for every capex and constant annual savings, the cash-flow and
cumulative series have 11 entries, the cumulative series starts at
−capex and each later entry adds the savings, and `find_breakeven`
returns the smallest index whose cumulative value is ≥ 0, or `none`
when every entry is negative. -/
theorem cash_flow_props (capex s : ℚ) :
    ((calculate_cash_flow capex s 10).1.length = 11) ∧
    ((calculate_cash_flow capex s 10).2.length = 11) ∧
    ((calculate_cash_flow capex s 10).2.getD 0 0 = -capex) ∧
    (∀ k : ℕ, 1 ≤ k → k ≤ 10 →
      (calculate_cash_flow capex s 10).2.getD k 0 =
        (calculate_cash_flow capex s 10).2.getD (k - 1) 0 + s) ∧
    (∀ k : ℕ, find_breakeven (calculate_cash_flow capex s 10).2 = some k →
      k < 11 ∧ 0 ≤ (calculate_cash_flow capex s 10).2.getD k 0 ∧
        ∀ j, j < k → (calculate_cash_flow capex s 10).2.getD j 0 < 0) ∧
    (find_breakeven (calculate_cash_flow capex s 10).2 = none →
      ∀ j, j < 11 → (calculate_cash_flow capex s 10).2.getD j 0 < 0) := by
  have hlen : (calculate_cash_flow capex s 10).2.length = 11 := by
    simp [calculate_cash_flow, cumulative_from_length]
  refine ⟨by simp [calculate_cash_flow], hlen, by simp [calculate_cash_flow], ?_, ?_, ?_⟩
  · intro k h1 h10
    obtain ⟨j, rfl⟩ : ∃ j, k = j + 1 := ⟨k - 1, by omega⟩
    simp only [calculate_cash_flow, List.getD_cons_succ, Nat.add_sub_cancel]
    rw [cumulative_from_getD s 10 j (-capex) (by omega)]
    cases j with
    | zero => simp
    | succ j2 =>
      simp only [List.getD_cons_succ]
      rw [cumulative_from_getD s 10 j2 (-capex) (by omega)]
      push_cast
      ring
  · intro k h
    obtain ⟨j, hj, hk, hge, hlt⟩ := find_breakeven_from_some _ 0 k h
    obtain rfl : k = j := by omega
    rw [hlen] at hj
    exact ⟨hj, hge, hlt⟩
  · intro h j hj
    exact find_breakeven_from_none _ 0 h j (by rw [hlen]; exact hj)

/-- C5 witness: the cash-flow properties at capex 5, savings 1, where
break-even is reached at year 5. -/
theorem cash_flow_props_witness :
    ((1:ℕ) ≤ 3 ∧ (3:ℕ) ≤ 10 ∧
      (calculate_cash_flow 5 1 10).2.getD 3 0 =
        (calculate_cash_flow 5 1 10).2.getD 2 0 + 1) ∧
    (find_breakeven (calculate_cash_flow 5 1 10).2 = some 5 ∧
      5 < 11 ∧ (0:ℚ) ≤ (calculate_cash_flow 5 1 10).2.getD 5 0 ∧
      ∀ j, j < 5 → (calculate_cash_flow 5 1 10).2.getD j 0 < 0) := by
  have hfb : find_breakeven (calculate_cash_flow 5 1 10).2 = some 5 := by
    norm_num [find_breakeven, find_breakeven_from, calculate_cash_flow, cumulative_from]
  refine ⟨⟨by norm_num, by norm_num,
    (cash_flow_props 5 1).2.2.2.1 3 (by norm_num) (by norm_num)⟩, hfb, ?_⟩
  exact (cash_flow_props 5 1).2.2.2.2.1 5 hfb

theorem gate_finalize_status (i : GateInputs) (notes : List String)
    (a : List (String × AVal)) (h : notes ≠ []) :
    (gate_finalize i notes a).status ≠ GateStatus.proceed := by
  simp only [gate_finalize]
  rcases hwf : i.waste_form with _ | wf
  · simp only [hwf]
    repeat' split
    all_goals simp_all
  · simp only [hwf]
    rcases hlk : List.lookup wf form_notes with _ | n <;> simp only [hlk] <;>
      repeat' split
    all_goals simp_all

theorem gate_after_vector_status (i : GateInputs) (pt : ℚ) (notes : List String) :
    (gate_after_vector i pt notes).status ≠ GateStatus.proceed := by
  simp only [gate_after_vector]
  split
  · simp
  · split
    · simp
    · apply gate_finalize_status
      cases hwa : i.waste_amount_known <;> rcases hq : i.q_waste_kw with _ | q <;>
        simp only [hwa, hq]
      all_goals (repeat' split) <;> simp [List.append_eq_nil]

theorem gate_vector_stage_status (i : GateInputs) (pt tt : ℚ) :
    (gate_vector_stage i pt tt).status ≠ GateStatus.proceed := by
  unfold gate_vector_stage
  rcases hsp : i.steam_pressure_barA with _ | p <;> simp only [hsp] <;>
    split_ifs <;> first | apply gate_after_vector_status | simp

/-- C10: the decision tree never returns status `proceed`: every path
that survives the early-return gates appends a note in the waste-heat
amount step, so the final status is one of `caution`, `not_viable` or
`suggest_hx` — `caution` whenever no early return fired. -/
theorem gate_never_proceed (i : GateInputs) :
    (evaluate_decision_tree i).status = GateStatus.caution ∨
    (evaluate_decision_tree i).status = GateStatus.not_viable ∨
    (evaluate_decision_tree i).status = GateStatus.suggest_hx := by
  have h : (evaluate_decision_tree i).status ≠ GateStatus.proceed := by
    unfold evaluate_decision_tree
    rcases hp : i.process_temp_c with _ | pt <;>
      rcases ht : i.target_supply_temp_c with _ | tt
    · simp
    · simp
    · simp
    · exact gate_vector_stage_status i pt tt
  cases hs : (evaluate_decision_tree i).status <;> simp_all

/-- C2 counterexample: for the hyphen-separated band label
"10-30% (very efficient process)" (one of the three labels the form
offers) the higher of the two numbers is 30, but the recorded waste_pct
is 50: the parser only recognises the en-dash, and a hyphen falls
through to the 50 default. -/
theorem band_parse_counterexample :
    (evaluate_decision_tree
        (gi_with_band "10-30% (very efficient process)")).assumptions.lookup "waste_pct" =
      some (AVal.num 50) ∧
    (evaluate_decision_tree
        (gi_with_band "10-30% (very efficient process)")).assumptions.lookup "waste_pct" ≠
      some (AVal.num 30) := by
  constructor <;> decide

/-- C2 amended: in the band-parsing branch the recorded waste_pct is
`band_upper_estimate` of the selected label: for en-dash labels this is
the higher of the two numbers, tolerating trailing non-numeric suffix
text; for hyphen-separated labels (and any other parse failure,
including an empty selection) the recorded upper bound defaults to 50. -/
theorem band_parse_amended :
    (∀ band : String, band ≠ "" →
      (evaluate_decision_tree (gi_with_band band)).assumptions =
        [("T_in1", AVal.num 100),
         ("waste_pct", AVal.num (band_upper_estimate band)),
         ("waste_form", AVal.str "Hot water")]) ∧
    band_upper_estimate "10–30% of energy input" = 30 ∧
    band_upper_estimate "31–50% of energy input" = 50 ∧
    band_upper_estimate "51–80% of energy input" = 80 ∧
    band_upper_estimate "10–30% (very efficient process)" = 30 ∧
    band_upper_estimate "10-30% (very efficient process)" = 50 ∧
    band_upper_estimate "31-50% (average for modern processes)" = 50 ∧
    band_upper_estimate
      "51-80% (Typical for processes without any control for minimising waste heat)" = 50 ∧
    band_upper_estimate "" = 50 := by
  refine ⟨?_, by decide, by decide, by decide, by decide, by decide, by decide,
    by decide, by decide⟩
  intro band hb
  have h0 : evaluate_decision_tree (gi_with_band band) =
      { status := GateStatus.caution,
        notes :=
          ["Waste heat from a dedicated cooling system or exhaust — suitable for heat-pump integration.",
           "Waste-heat amount unknown — using upper estimate of energy input.",
           "Waste heat available as hot water — highly suitable for heat-pump integration.",
           "Waste heat not yet captured — additional pipework/ducting or a heat exchanger may be needed.",
           "No existing waste-heat processor — Mechapres could be the main technology to use that heat."],
        assumptions :=
          [("T_in1", AVal.num 100),
           ("waste_pct",
             AVal.num (band_upper_estimate (if band = "" then default_band_str else band))),
           ("waste_form", AVal.str "Hot water")] } := rfl
  rw [h0]
  simp [hb]

/-- C2 witness: the amended parsing property at the en-dash label whose
upper bound is 80. -/
theorem band_parse_witness :
    ("51–80% of energy input" ≠ "") ∧
    (evaluate_decision_tree (gi_with_band "51–80% of energy input")).assumptions =
      [("T_in1", AVal.num 100),
       ("waste_pct", AVal.num (band_upper_estimate "51–80% of energy input")),
       ("waste_form", AVal.str "Hot water")] :=
  ⟨by decide, band_parse_amended.1 "51–80% of energy input" (by decide)⟩

/-- C1 counterexample: with the fuel-based sample inputs (1000 MWh of
useful heat, 80% boiler efficiency, natural-gas factor 0.2027 kg/kWh)
the code computes co2_current = 1250 × 0.2027 = 253.375 (tonnes), not
E_current_MWh × fuel factor × 1000 as the claim states. -/
theorem co2_fuel_counterexample :
    system_uses_fuel econ_fuel.heat_supply_tech = true ∧
    (compute_investment_returns perf_sample econ_fuel).co2_current = 2027/8 ∧
    (compute_investment_returns perf_sample econ_fuel).co2_current ≠
      (compute_investment_returns perf_sample econ_fuel).E_current_MWh *
        econ_fuel.emission_factor_fuel_kWh * 1000 := by
  have hf : system_uses_fuel econ_fuel.heat_supply_tech = true := by decide
  have hc : (compute_investment_returns perf_sample econ_fuel).co2_current = 2027/8 := by
    rw [econ_co2_current, if_pos hf]
    norm_num [econ_fuel]
  have he : (compute_investment_returns perf_sample econ_fuel).E_current_MWh = 1250 := by
    rw [econ_E_current]
    norm_num [econ_fuel]
  refine ⟨hf, hc, ?_⟩
  rw [hc, he]
  norm_num [econ_fuel]

/-- C1 amended: in the CO₂ step, a fuel-based existing system gives
co2_current = E_current_MWh × fuel factor (kg/kWh, numerically equal to
tonnes per MWh, with no extra ×1000); an electric one gives
co2_current = E_current_MWh × electricity factor / 1000; co2_mechapres =
E_hp_MWh × electricity factor / 1000; and co2_savings =
max(0, co2_current − co2_mechapres) is never negative. -/
theorem co2_step_formulas (perf : PerfResult) (i : EconInputs) :
    (system_uses_fuel i.heat_supply_tech = true →
      (compute_investment_returns perf i).co2_current =
        (compute_investment_returns perf i).E_current_MWh * i.emission_factor_fuel_kWh) ∧
    (system_uses_fuel i.heat_supply_tech = false →
      (compute_investment_returns perf i).co2_current =
        (compute_investment_returns perf i).E_current_MWh * i.emission_factor_elec / 1000) ∧
    (compute_investment_returns perf i).co2_mechapres =
      (compute_investment_returns perf i).E_hp_electric_MWh * i.emission_factor_elec / 1000 ∧
    (compute_investment_returns perf i).co2_savings =
      max 0 ((compute_investment_returns perf i).co2_current -
        (compute_investment_returns perf i).co2_mechapres) ∧
    0 ≤ (compute_investment_returns perf i).co2_savings := by
  refine ⟨?_, ?_, ?_, econ_co2_savings perf i, ?_⟩
  · intro h
    rw [econ_co2_current, econ_E_current, if_pos h]
  · intro h
    rw [econ_co2_current, econ_E_current, if_neg (by simp [h])]
  · rw [econ_co2_mechapres, econ_E_hp]
  · rw [econ_co2_savings]
    exact le_max_left 0 _

/-- C1 witness: the fuel-case and electric-case CO₂ formulas at the
concrete sample inputs. -/
theorem co2_step_witness :
    (system_uses_fuel econ_fuel.heat_supply_tech = true ∧
      (compute_investment_returns perf_sample econ_fuel).co2_current =
        (compute_investment_returns perf_sample econ_fuel).E_current_MWh *
          econ_fuel.emission_factor_fuel_kWh) ∧
    (system_uses_fuel econ_elec.heat_supply_tech = false ∧
      (compute_investment_returns perf_sample econ_elec).co2_current =
        (compute_investment_returns perf_sample econ_elec).E_current_MWh *
          econ_elec.emission_factor_elec / 1000) :=
  ⟨⟨by decide, (co2_step_formulas perf_sample econ_fuel).1 (by decide)⟩,
   ⟨by decide, (co2_step_formulas perf_sample econ_elec).2.1 (by decide)⟩⟩

theorem cop_real_default_eq (t1 t2 : ℚ) :
    cop_real_default t1 t2 =
      max 0 ((3/5) *
        (if t2 + 8 - 2 ≤ max (t1 - 8) 70 then 0
         else (t2 + 8 - 2 + 27315/100) /
           ((t2 + 8 - 2 + 27315/100) - (max (t1 - 8) 70 + 27315/100)))) := by
  unfold cop_real_default excel_performance_logic
  rw [if_neg (by norm_num : ¬ (1:ℚ) ≤ 0)]
  rfl

/-- C3 counterexample: at T_out2 = 150, the pair T_in1 = 10 < T_in1' = 20
sits below the evaporator floor (T_evap = 70 for both) while the lift is
still valid (T_cond_steam = 156 > T_evap), yet COP_real is the same at
both inputs rather than strictly greater at the larger one. -/
theorem cop_monotonic_counterexample :
    (10:ℚ) < 20 ∧
    ¬ ((150:ℚ) + 8 - 2 ≤ max ((20:ℚ) - 8) 70) ∧
    cop_real_default 10 150 = cop_real_default 20 150 ∧
    ¬ cop_real_default 10 150 < cop_real_default 20 150 := by
  have heq : cop_real_default 10 150 = cop_real_default 20 150 := by
    rw [cop_real_default_eq, cop_real_default_eq]
    norm_num
  exact ⟨by norm_num, by norm_num, heq, by rw [heq]; exact lt_irrefl _⟩

/-- C3 amended: with T_out2 fixed and the defaults, COP_real is strictly
increasing in T_in1 on the region where the evaporator floor is inactive
(T_in1 ≥ minEvapTemp + appEvaporator = 78) and the lift is still valid
at the larger input (T_in1' − 8 < T_cond_steam = T_out2 + 6); below the
floor COP_real is constant in T_in1; and once T_cond_steam ≤ T_evap the
COP_real is 0 and stays 0 for every further increase of T_in1. -/
theorem cop_monotonic_amended :
    (∀ t2 t1 t1' : ℚ, 78 ≤ t1 → t1 < t1' → t1' - 8 < t2 + 6 →
      cop_real_default t1 t2 < cop_real_default t1' t2) ∧
    (∀ t2 t1 t1' : ℚ, t2 + 6 ≤ max (t1 - 8) 70 → t1 ≤ t1' →
      cop_real_default t1 t2 = 0 ∧ cop_real_default t1' t2 = 0) := by
  constructor
  · intro t2 t1 t1' h78 hlt hcut
    rw [cop_real_default_eq, cop_real_default_eq]
    have he1 : max (t1 - 8) 70 = t1 - 8 := max_eq_left (by linarith)
    have he2 : max (t1' - 8) 70 = t1' - 8 := max_eq_left (by linarith)
    rw [he1, he2]
    have hc1 : ¬ (t2 + 8 - 2 ≤ t1 - 8) := by linarith
    have hc2 : ¬ (t2 + 8 - 2 ≤ t1' - 8) := by linarith
    rw [if_neg hc1, if_neg hc2]
    have hKpos : 0 < t2 + 8 - 2 + 27315/100 := by linarith
    have hd1 : 0 < t2 + 8 - 2 + 27315/100 - (t1 - 8 + 27315/100) := by linarith
    have hd2 : 0 < t2 + 8 - 2 + 27315/100 - (t1' - 8 + 27315/100) := by linarith
    have hdlt : t2 + 8 - 2 + 27315/100 - (t1' - 8 + 27315/100) <
        t2 + 8 - 2 + 27315/100 - (t1 - 8 + 27315/100) := by linarith
    have hfrac := div_lt_div_of_pos_left hKpos hd2 hdlt
    have h1nn : (0:ℚ) ≤ 3/5 * ((t2 + 8 - 2 + 27315/100) /
        (t2 + 8 - 2 + 27315/100 - (t1 - 8 + 27315/100))) :=
      le_of_lt (mul_pos (by norm_num) (div_pos hKpos hd1))
    have h2nn : (0:ℚ) ≤ 3/5 * ((t2 + 8 - 2 + 27315/100) /
        (t2 + 8 - 2 + 27315/100 - (t1' - 8 + 27315/100))) :=
      le_of_lt (mul_pos (by norm_num) (div_pos hKpos hd2))
    rw [max_eq_right h1nn, max_eq_right h2nn]
    exact mul_lt_mul_of_pos_left hfrac (by norm_num)
  · intro t2 t1 t1' hle hmono
    have hmax : max (t1 - 8) 70 ≤ max (t1' - 8) 70 :=
      max_le_max (by linarith) le_rfl
    constructor
    · rw [cop_real_default_eq, if_pos (by linarith)]
      norm_num
    · rw [cop_real_default_eq, if_pos (by linarith)]
      norm_num

/-- C3 witness: strict growth from T_in1 = 100 to 110 at T_out2 = 150,
and the zero plateau at T_out2 = 60 from T_in1 = 100 onwards. -/
theorem cop_monotonic_witness :
    ((78:ℚ) ≤ 100 ∧ (100:ℚ) < 110 ∧ (110:ℚ) - 8 < 150 + 6 ∧
      cop_real_default 100 150 < cop_real_default 110 150) ∧
    ((60:ℚ) + 6 ≤ max ((100:ℚ) - 8) 70 ∧ (100:ℚ) ≤ 120 ∧
      cop_real_default 100 60 = 0 ∧ cop_real_default 120 60 = 0) :=
  ⟨⟨by norm_num, by norm_num, by norm_num,
      cop_monotonic_amended.1 150 100 110 (by norm_num) (by norm_num) (by norm_num)⟩,
   ⟨by norm_num, by norm_num,
      cop_monotonic_amended.2 60 100 120 (by norm_num) (by norm_num)⟩⟩

theorem npv_sum_cast (savings r : ℚ) :
    ∀ y : ℕ, ((npv_sum savings r y : ℚ) : ℝ) = npv_sumR (savings : ℝ) (r : ℝ) y := by
  intro y
  induction y with
  | zero => simp [npv_sum, npv_sumR]
  | succ t ih =>
    simp only [npv_sum, npv_sumR]
    push_cast
    rw [ih]

theorem npv_cast (c s r : ℚ) (y : ℕ) :
    ((npv_at c s r y : ℚ) : ℝ) = npvR (c : ℝ) (s : ℝ) (r : ℝ) y := by
  unfold npv_at npvR
  push_cast
  rw [npv_sum_cast]

theorem npv_sum_eq_finset (s r : ℚ) :
    ∀ y : ℕ, npv_sum s r y = ∑ t ∈ Finset.range y, s / (1 + r) ^ (t + 1) := by
  intro y
  induction y with
  | zero => simp [npv_sum]
  | succ t ih => rw [Finset.sum_range_succ, ← ih, npv_sum]

theorem irr_bisect_spec (c s : ℚ) (y : ℕ) :
    ∀ (n : ℕ) (lo hi : ℚ), lo ≤ hi →
      0 ≤ npv_at c s lo y → npv_at c s hi y ≤ 0 →
      lo ≤ (irr_bisect c s y n (lo, hi)).1 ∧
      (irr_bisect c s y n (lo, hi)).1 ≤ (irr_bisect c s y n (lo, hi)).2 ∧
      (irr_bisect c s y n (lo, hi)).2 ≤ hi ∧
      0 ≤ npv_at c s (irr_bisect c s y n (lo, hi)).1 y ∧
      npv_at c s (irr_bisect c s y n (lo, hi)).2 y ≤ 0 ∧
      (irr_bisect c s y n (lo, hi)).2 - (irr_bisect c s y n (lo, hi)).1 =
        (hi - lo) / 2 ^ n := by
  intro n
  induction n with
  | zero =>
    intro lo hi h1 h2 h3
    simp only [irr_bisect]
    exact ⟨le_rfl, h1, le_rfl, h2, h3, by norm_num⟩
  | succ n ih =>
    intro lo hi h1 h2 h3
    simp only [irr_bisect]
    by_cases hmid : npv_at c s ((lo + hi) / 2) y > 0
    · rw [if_pos hmid]
      have hlom : lo ≤ (lo + hi) / 2 := by linarith
      obtain ⟨a1, a2, a3, a4, a5, a6⟩ :=
        ih ((lo + hi) / 2) hi (by linarith) (le_of_lt hmid) h3
      refine ⟨le_trans hlom a1, a2, a3, a4, a5, ?_⟩
      rw [a6, show hi - (lo + hi) / 2 = (hi - lo) / 2 by ring, div_div]
      congr 1
      ring
    · rw [if_neg hmid]
      have hmle : (lo + hi) / 2 ≤ hi := by linarith
      obtain ⟨a1, a2, a3, a4, a5, a6⟩ :=
        ih lo ((lo + hi) / 2) (by linarith) h2 (le_of_not_lt hmid)
      refine ⟨a1, a2, le_trans a3 hmle, a4, a5, ?_⟩
      rw [a6, show (lo + hi) / 2 - lo = (hi - lo) / 2 by ring, div_div]
      congr 1
      ring

theorem npvR_continuousOn (c s : ℝ) (y : ℕ) (a b : ℝ) (ha : 0 ≤ a) :
    ContinuousOn (fun r => npvR c s r y) (Set.Icc a b) := by
  induction y with
  | zero =>
    have heq : (fun r => npvR c s r 0) = fun _ => -c + 0 := by
      funext r
      unfold npvR npv_sumR
      rfl
    rw [heq]
    exact continuousOn_const
  | succ t ih =>
    have heq : (fun r => npvR c s r (t + 1)) =
        fun r => npvR c s r t + s / (1 + r) ^ (t + 1) := by
      funext r
      have hstep : npv_sumR s r (t + 1) = npv_sumR s r t + s / (1 + r) ^ (t + 1) := rfl
      unfold npvR
      rw [hstep]
      ring
    rw [heq]
    refine ContinuousOn.add ih (ContinuousOn.div continuousOn_const
      ((continuousOn_const.add continuousOn_id).pow _) ?_)
    intro x hx
    have hx0 : (0:ℝ) < 1 + x := by
      have := hx.1
      linarith
    exact pow_ne_zero _ (ne_of_gt hx0)

/-- C4 counterexample: with capex 1000 and savings 1 the NPV is below
−989 for every non-negative rate, so no root exists at all and the value
returned by the bisection is not within 2⁻⁶⁰ of any root — the claimed
root property fails whenever the NPV has no zero inside [0, 1]. -/
theorem irr_root_counterexample :
    (0:ℚ) < 1000 ∧ (0:ℚ) < 1 ∧
    ¬ ∃ r : ℝ, 0 ≤ r ∧ r ≤ 1 ∧ npvR ((1000:ℚ) : ℝ) ((1:ℚ) : ℝ) r 10 = 0 ∧
      |((irr_from_savings 1000 1 10 : ℚ) : ℝ) / 100 - r| ≤ 1 / 2 ^ 60 := by
  refine ⟨by norm_num, by norm_num, ?_⟩
  rintro ⟨r, hr0, -, hroot, -⟩
  have hb : ∀ z : ℕ, npv_sumR 1 r z ≤ z := by
    intro z
    induction z with
    | zero => simp [npv_sumR]
    | succ t ih =>
      have hpow : (1:ℝ) ≤ (1 + r) ^ (t + 1) := one_le_pow₀ (by linarith)
      have hterm : (1:ℝ) / (1 + r) ^ (t + 1) ≤ 1 :=
        (div_le_one (lt_of_lt_of_le one_pos hpow)).mpr hpow
      have : npv_sumR 1 r (t + 1) = npv_sumR 1 r t + 1 / (1 + r) ^ (t + 1) := rfl
      rw [this]
      push_cast
      linarith
  have h10 := hb 10
  unfold npvR at hroot
  push_cast at hroot h10
  linarith

/-- C4 amended: for non-positive savings the IRR is exactly 0; and for
positive savings, whenever the 10-year NPV actually brackets a root on
[0, 1] (NPV(0) ≥ 0 ≥ NPV(1)), the returned rate is within 2⁻⁶⁰ of a real
root of the NPV.  When no root lies in [0, 1] the bisection converges to
an endpoint instead, so the bracketing hypothesis is necessary. -/
theorem irr_props :
    (∀ c s : ℚ, s ≤ 0 → irr_from_savings c s 10 = 0) ∧
    (∀ c s : ℚ, 0 < s → 0 ≤ npv_at c s 0 10 → npv_at c s 1 10 ≤ 0 →
      ∃ r : ℝ, 0 ≤ r ∧ r ≤ 1 ∧ npvR (c : ℝ) (s : ℝ) r 10 = 0 ∧
        |((irr_from_savings c s 10 : ℚ) : ℝ) / 100 - r| ≤ 1 / 2 ^ 60) := by
  constructor
  · intro c s hs
    simp [irr_from_savings, hs]
  · intro c s hs h0 h1
    have hs' : ¬ s ≤ 0 := not_le.mpr hs
    obtain ⟨a1, a2, a3, a4, a5, a6⟩ := irr_bisect_spec c s 10 60 0 1 (by norm_num) h0 h1
    set lo := (irr_bisect c s 10 60 (0, 1)).1 with hlo
    set hi := (irr_bisect c s 10 60 (0, 1)).2 with hhi
    have hloR : (0:ℝ) ≤ npvR (c : ℝ) (s : ℝ) ((lo : ℚ) : ℝ) 10 := by
      rw [← npv_cast]
      exact_mod_cast a4
    have hhiR : npvR (c : ℝ) (s : ℝ) ((hi : ℚ) : ℝ) 10 ≤ 0 := by
      rw [← npv_cast]
      exact_mod_cast a5
    have hlohiR : ((lo : ℚ) : ℝ) ≤ ((hi : ℚ) : ℝ) := by exact_mod_cast a2
    have hcont := npvR_continuousOn (c : ℝ) (s : ℝ) 10 ((lo : ℚ) : ℝ) ((hi : ℚ) : ℝ)
      (by exact_mod_cast a1)
    have h0mem : (0:ℝ) ∈
        Set.Icc (npvR (c : ℝ) (s : ℝ) ((hi : ℚ) : ℝ) 10)
          (npvR (c : ℝ) (s : ℝ) ((lo : ℚ) : ℝ) 10) := ⟨hhiR, hloR⟩
    obtain ⟨r, hrmem, hr0⟩ := intermediate_value_Icc' hlohiR hcont h0mem
    have hwidth : hi - lo = 1 / 2 ^ 60 := by
      rw [a6]
      norm_num
    have hirr : irr_from_savings c s 10 = (lo + hi) / 2 * 100 := by
      unfold irr_from_savings
      rw [if_neg hs']
    refine ⟨r, le_trans (by exact_mod_cast a1) hrmem.1,
      le_trans hrmem.2 (by exact_mod_cast a3), hr0, ?_⟩
    rw [hirr]
    have hwR : ((hi : ℚ) : ℝ) - ((lo : ℚ) : ℝ) = 1 / 2 ^ 60 := by
      have h2 : ((hi - lo : ℚ) : ℝ) = 1 / 2 ^ 60 := by
        rw [hwidth]
        push_cast
        ring
      rw [← h2]
      push_cast
      ring
    have hr1 : ((lo : ℚ) : ℝ) ≤ r := hrmem.1
    have hr2 : r ≤ ((hi : ℚ) : ℝ) := hrmem.2
    have hpos : (0:ℝ) < 1 / 2 ^ 60 := by positivity
    push_cast
    rw [abs_le]
    constructor <;> nlinarith [hr1, hr2, hwR]

/-- C4 witness: zero IRR at savings −1, and the root property at the
bracketed scenario-6 inputs (capex £500,000, savings £100,000). -/
theorem irr_props_witness :
    irr_from_savings 5 (-1) 10 = 0 ∧
    ((0:ℚ) < 100000 ∧ 0 ≤ npv_at 500000 100000 0 10 ∧
      npv_at 500000 100000 1 10 ≤ 0) ∧
    (∃ r : ℝ, 0 ≤ r ∧ r ≤ 1 ∧ npvR ((500000:ℚ) : ℝ) ((100000:ℚ) : ℝ) r 10 = 0 ∧
      |((irr_from_savings 500000 100000 10 : ℚ) : ℝ) / 100 - r| ≤ 1 / 2 ^ 60) := by
  have h0 : (0:ℚ) ≤ npv_at 500000 100000 0 10 := by
    rw [npv_at, npv_sum_eq_finset]
    norm_num [Finset.sum_range_succ]
  have h1 : npv_at 500000 100000 1 10 ≤ 0 := by
    rw [npv_at, npv_sum_eq_finset]
    norm_num [Finset.sum_range_succ]
  exact ⟨irr_props.1 5 (-1) (by norm_num), ⟨by norm_num, h0, h1⟩,
    irr_props.2 500000 100000 (by norm_num) h0 h1⟩

/-- C9: the performance model fails (raises, modelled as `none`) exactly
when the heat demand is non-positive or one of the two temperatures is
absent; on every other input it returns a result. -/
theorem perf_error_iff (T_in1 T_out2 : Option ℚ) (P Q a b c d e f : ℚ) :
    excel_performance_logic T_in1 T_out2 P Q a b c d e f = none ↔
      (Q ≤ 0 ∨ T_in1 = none ∨ T_out2 = none) := by
  unfold excel_performance_logic
  rcases T_in1 with _ | t1 <;> rcases T_out2 with _ | t2 <;>
    split_ifs with h <;> simp [h]

end Mechapres
